/-
Verification of the ULWGL launcher (Open-Wine-Components/ULWGL) against its
natural-language specification.

The development shallowly embeds the parts of `src/ULWGL/ulwgl_run.py` (the
current launcher; `src/ulwgl_run.py` is the older standalone variant) that the
checked claims are about:

* the `__main__` exception/exit-status logic and `stop_unit` (Process
  Supervisor),
* the subreaper-selection branch and precondition checks of `build_command`
  (Command Builder),
* the `PROTON_VERB` and app-id derivation of `set_env`, and the `PROTONPATH`
  resolution of `check_env` (Config Resolver),
* the prefix-reconciliation function `setup_pfx` (Prefix Reconciler), over a
  small model of the on-disk entries it manages.

Filesystem and process effects are modelled by explicit state values; Python
exceptions are modelled by `Except` / explicit exception values.  Comments on
each definition cite the source lines it embeds.
-/

import Mathlib

set_option maxRecDepth 4000

deriving instance DecidableEq for Except

namespace ULWGL

/-! ## Process Supervisor: `stop_unit` and the `__main__` block

`src/ULWGL/ulwgl_run.py` lines 385-441.
-/

/-- Python exceptions relevant to the `__main__` block of
`src/ULWGL/ulwgl_run.py` (lines 418-441): `KeyError` (from an unguarded
`os.environ[...]` access), `SystemExit` (from `sys.exit`),
`KeyboardInterrupt`, and any other uncaught exception (`generic`). -/
inductive PyExc
  | keyError
  | systemExit (code : Int)
  | keyboardInterrupt
  | generic
deriving DecidableEq

/-- One row of the `systemctl list-units --user -o json` output consumed by
`stop_unit` (lines 399-410).  `description` is `item.get("description")`
(absent key gives `none`); `unit` is `item["unit"]`, which every
`list-units` JSON row carries. -/
structure UnitItem where
  description : Option String
  unit : String
deriving DecidableEq

/-- The loop of `stop_unit` (lines 405-410): `unit` starts as `""` and is set
to `item["unit"]` of the first item whose `description` equals the id,
breaking out of the loop. -/
def findUnit (key : String) : List UnitItem → String
  | [] => ""
  | i :: rest => if i.description == some key then i.unit else findUnit key rest

/-- Lines 404-415 of `stop_unit`: build `ulwgl_id`, scan the unit list, and
issue `systemctl stop --user <unit>` only when a unit was found (`if unit:`).
The returned value is the unit name passed to the stop call, `none` when no
stop call is issued. -/
def stopLogic (units : List UnitItem) (id : String) : Option String :=
  let u := findUnit ("ulwgl-" ++ id) units
  if u = "" then none else some u

/-- `stop_unit` (lines 385-415).  `systemd` is `os.environ["ULWGL_SYSTEMD"]`
(always present: `main` writes every key of its `env` dict, which contains
`"ULWGL_SYSTEMD"`, into `os.environ`).  `gamescope` is the
`os.environ["ULWGL_GAMESCOPE"]` entry, `none` when the variable was never
set; indexing it then raises `KeyError`.  The guard on line 393 is
`not os.environ["ULWGL_SYSTEMD"] == "1" and os.environ["ULWGL_GAMESCOPE"] == "1"`,
so `ULWGL_GAMESCOPE` is only read when `ULWGL_SYSTEMD` differs from `"1"`
(Python `and` short-circuits); if the guard holds the function warns and
returns without stopping anything. -/
def stop_unit (systemd : String) (gamescope : Option String) (units : List UnitItem)
    (id : String) : Except PyExc (Option String) :=
  if !(systemd == "1") then
    match gamescope with
    | none => .error PyExc.keyError
    | some g =>
      if g == "1" then .ok none
      else .ok (stopLogic units id)
  else .ok (stopLogic units id)

/-- The first unit row whose description equals the key: the specification
vocabulary used to state what the `stop_unit` loop computes. -/
def firstMatch (units : List UnitItem) (key : String) : Option UnitItem :=
  units.find? (fun i => i.description == some key)

/-- How one invocation that reached `subprocess.run` ends: the child completes
with a return code, `main` raises an uncaught internal fault, one interrupt
arrives, or a second interrupt arrives while the first is being handled. -/
inductive RunEvent
  | completes
  | faults
  | interruptedOnce
  | interruptedTwice
deriving DecidableEq

/-- The exception escaping the `try` body of the `__main__` block
(lines 419-426): `ret = main()`; when `ret` is falsy (`== 0`) call
`stop_unit(os.environ["ULWGL_ID"])`; then `sys.exit(ret)` raises
`SystemExit(ret)`.  A `KeyError` from `stop_unit` escapes the body; an
uncaught fault inside `main` is `generic`; an interrupt is
`KeyboardInterrupt`.  The body always ends in an exception because
`sys.exit` raises. -/
def mainBody (ev : RunEvent) (ret : Int) (systemd : String) (gamescope : Option String)
    (units : List UnitItem) (id : String) : PyExc :=
  match ev with
  | RunEvent.faults => PyExc.generic
  | RunEvent.interruptedOnce => PyExc.keyboardInterrupt
  | RunEvent.interruptedTwice => PyExc.keyboardInterrupt
  | RunEvent.completes =>
    if ret == 0 then
      match stop_unit systemd gamescope units id with
      | Except.error e => e
      | Except.ok _ => PyExc.systemExit ret
    else PyExc.systemExit ret

/-- CPython's exit status for an exception that escapes the interpreter:
`SystemExit c` exits with `c`; any other unhandled exception prints a
traceback and exits with status `1`. -/
def uncaughtExit : PyExc → Int
  | PyExc.systemExit c => c
  | _ => 1

/-- The process exit status of the `__main__` block (lines 418-441).
Handler semantics, in source order:

* `except KeyboardInterrupt` (427-430): runs `stop_unit` (an exception
  raised there escapes the handler uncaught; a second interrupt during the
  handler escapes as an uncaught `KeyboardInterrupt`), then `sys.exit(1)`
  raises `SystemExit 1` inside the handler, which no later clause of the
  same `try` catches;
* `except SystemExit` (431-433): when the code is non-zero it raises
  `Exception(e)` from inside the handler, which the later `except Exception`
  clause does NOT catch, so the interpreter exits with status 1; a zero code
  is swallowed and the program falls off the end with status 0;
* `except Exception` (434-436): catches `KeyError`/`generic`, logs, and
  `sys.exit(1)` raises `SystemExit 1` from the handler, uncaught.

The `finally` block (437-440) only unlinks the `.ref` marker
(`missing_ok=True`) and never changes the status. -/
def program_exit (ev : RunEvent) (ret : Int) (systemd : String) (gamescope : Option String)
    (units : List UnitItem) (id : String) : Int :=
  match mainBody ev ret systemd gamescope units id with
  | PyExc.systemExit c => if c ≠ 0 then uncaughtExit PyExc.generic else 0
  | PyExc.keyboardInterrupt =>
    match ev with
    | RunEvent.interruptedTwice => uncaughtExit PyExc.keyboardInterrupt
    | _ =>
      match stop_unit systemd gamescope units id with
      | Except.error e => uncaughtExit e
      | Except.ok _ => uncaughtExit (PyExc.systemExit 1)
  | PyExc.keyError => uncaughtExit (PyExc.systemExit 1)
  | PyExc.generic => uncaughtExit (PyExc.systemExit 1)

/-! ## Command Builder: subreaper selection

`src/ULWGL/ulwgl_run.py` lines 233-285.
-/

/-- The `[ulwgl]` table of a parsed TOML configuration document, restricted to
the `reaper` key read by the subreaper branch (other keys are irrelevant to
it).  `reaper = none` models an absent key (`config.get("ulwgl").get("reaper")`
returns `None`). -/
structure UlwglTable where
  reaper : Option Bool
deriving DecidableEq

/-- The subreaper strategy of spec section 3: an external reaper wrapper
process, or a transient systemd service unit. -/
inductive SubreaperChoice
  | externalReaperProcess
  | transientServiceUnit
deriving DecidableEq

/-- Python truthiness of the value `config.get("ulwgl").get("reaper")`:
`None` and `False` are falsy, `True` is truthy. -/
def truthy : Option Bool → Bool
  | none => false
  | some b => b

/-- The subreaper branch of `build_command` (lines 258-271), translated
verbatim:

`if config and config.get("ulwgl").get("reaper") and not config.get("ulwgl").get("reaper"):`
`    enable_systemd(env, command)`
`elif env.get("ULWGL_SYSTEMD") == "1":`
`    enable_systemd(env, command)`
`else:`
`    enable_reaper(env, command, local)`

`config = some c` models a truthy parsed document with its `[ulwgl]` table
(set_env_toml guarantees that table); `systemdVar` is the env-dict value
`env.get("ULWGL_SYSTEMD")`, `""` by default.  Note the first condition
conjoins a value with its own negation. -/
def selectSubreaper (config : Option UlwglTable) (systemdVar : String) : SubreaperChoice :=
  if (match config with
      | some c => truthy c.reaper && !truthy c.reaper
      | none => false) then
    SubreaperChoice.transientServiceUnit
  else if systemdVar == "1" then SubreaperChoice.transientServiceUnit
  else SubreaperChoice.externalReaperProcess

/-! ## Config Resolver: `PROTON_VERB` (set_env lines 174-230) -/

/-- The fixed known-verb set.  `src/ULWGL/ulwgl_run.py` imports `PROTON_VERBS`
from `ulwgl_consts` (file not in the sources); the same constant is written
out inline in `src/ulwgl_run.py` lines 183-190, reproduced here. -/
def PROTON_VERBS : List String :=
  ["waitforexitandrun", "run", "runinprefix", "destroyprefix",
   "getcompatpath", "getnativepath"]

/-- The parsed command line reaching `set_env`: either the positional form
`(executable, options)` (a tuple) or the `--config` form (a Namespace). -/
inductive Args
  | cli (exe : String) (opts : List String)
  | config
deriving DecidableEq

/-- Lines 183-186 of `set_env`: adopt `os.environ["PROTON_VERB"]` only when
present and a member of `PROTON_VERBS`, else `"waitforexitandrun"`. -/
def set_env_verb (protonVerbVar : Option String) : String :=
  match protonVerbVar with
  | some v => if PROTON_VERBS.contains v then v else "waitforexitandrun"
  | none => "waitforexitandrun"

/-- The value of `env["PROTON_VERB"]` after the whole of `set_env`
(lines 181-200): the EXE branch for a tuple argument whose executable is the
empty string (prefix-creation mode, lines 190-193) overwrites the verb with
`"waitforexitandrun"`; the other branches leave it unchanged. -/
def resolved_verb (protonVerbVar : Option String) (args : Args) : String :=
  let v := set_env_verb protonVerbVar
  match args with
  | Args.cli exe _ => if exe = "" then "waitforexitandrun" else v
  | Args.config => v

/-! ## Config Resolver: app-id derivation (set_env lines 205-212)

Game identifiers are modelled as lists of characters; the embedding of the
regular expression `^ulwgl-[\d\w]+$` restricts `\w` to its ASCII meaning
(letters, digits, underscore), which is exact for ASCII identifiers.
-/

/-- One character of the Python character class `[\d\w]`, which equals `\w`:
a word character (alphanumeric or underscore; ASCII fragment). -/
def isWordChar (c : Char) : Bool := c.isAlphanum || c = '_'

/-- `re.match(r"^ulwgl-[\d\w]+$", id)` (line 209): the literal head
`ulwgl-` followed by one or more word characters, anchored at both ends. -/
def matchesUlwglId : List Char → Bool
  | 'u' :: 'l' :: 'w' :: 'g' :: 'l' :: '-' :: rest =>
    !rest.isEmpty && rest.all isWordChar
  | _ => false

/-- Python `str.find("-")`: index of the first `'-'`, `-1` when absent. -/
def strFindDash : List Char → Int
  | [] => -1
  | c :: rest =>
    if c = '-' then 0
    else
      let r := strFindDash rest
      if r = -1 then -1 else r + 1

/-- Lines 205-212 of `set_env`: `ULWGL_ID` is the game id;
`STEAM_COMPAT_APP_ID` starts as `"0"` and becomes the slice
`ULWGL_ID[ULWGL_ID.find("-") + 1:]` when the id matches the pattern;
`SteamAppId` copies `STEAM_COMPAT_APP_ID` and `SteamGameId` copies
`SteamAppId`.  Result order:
(`ULWGL_ID`, `STEAM_COMPAT_APP_ID`, `SteamAppId`, `SteamGameId`). -/
def set_env_ids (gameid : List Char) : List Char × List Char × List Char × List Char :=
  let ulwglId := gameid
  let appId : List Char :=
    if matchesUlwglId ulwglId then ulwglId.drop ((strFindDash ulwglId + 1).toNat)
    else ['0']
  (ulwglId, appId, appId, appId)

/-- The pattern exactly as the claim words it: `ulwgl-` followed by one or
more alphanumeric characters (claim-side definition, for comparison with the
source's `matchesUlwglId`). -/
def claimAlnumPattern : List Char → Bool
  | 'u' :: 'l' :: 'w' :: 'g' :: 'l' :: '-' :: rest =>
    !rest.isEmpty && rest.all Char.isAlphanum
  | _ => false

/-! ## Config Resolver: `PROTONPATH` resolution

`src/ULWGL/ulwgl_run.py`, `check_env` lines 143-171.
-/

/-- `Path.joinpath` rendered as a POSIX string: pathlib replaces the base
entirely when the joined component is absolute. -/
def joinPath (a b : String) : String :=
  if b.startsWith "/" then b else a ++ "/" ++ b

/-- The ambient state `check_env` consults while resolving `PROTONPATH`:

* `protonpathVar`: `os.environ` entry `PROTONPATH` at entry (`none` = unset);
* `steamCompat`: the `STEAM_COMPAT` cache root path (a constant imported from
  `ulwgl_consts`, the `compatibilitytools.d` directory);
* `cacheHasSubdir v`: whether `Path(f"STEAM_COMPAT/" + v).is_dir()` holds
  (line 149);
* `isExistingDir v`: whether `v` is an existing directory — never consulted
  by this `check_env`, recorded to state the claim's clause (2);
* `collabResult`: the value `get_ulwgl_proton` leaves in
  `os.environ["PROTONPATH"]` when invoked (`""` signals failure, per the
  collaborator contract of spec section 6). -/
structure ResolverWorld where
  protonpathVar : Option String
  steamCompat : String
  cacheHasSubdir : String → Bool
  isExistingDir : String → Bool
  collabResult : String

/-- Outcome of the `PROTONPATH` section of `check_env`: the resolved path
with a flag recording whether the retrieval collaborator was invoked, or the
`FileNotFoundError` of lines 163-169 (RuntimeNotFound in the spec's
taxonomy). -/
inductive ResolveOutcome
  | resolved (path : String) (delegated : Bool)
  | failed (delegated : Bool)
deriving DecidableEq

/-- `check_env` lines 147-171, the `PROTONPATH` resolution:

* lines 147-154: a set, truthy value naming an existing subdirectory of the
  cache is rewritten to `STEAM_COMPAT.joinpath(value)`;
* lines 156-158: only when `PROTONPATH` is absent from `os.environ` is it
  set to `""` and `get_ulwgl_proton(env)` invoked;
* lines 160-169: the final value is copied to the env dict, and an empty
  final value raises `FileNotFoundError`. -/
def check_env_protonpath (w : ResolverWorld) : ResolveOutcome :=
  let v1 : Option String :=
    match w.protonpathVar with
    | some v =>
      if (v != "") && w.cacheHasSubdir v then some (joinPath w.steamCompat v)
      else some v
    | none => none
  match v1 with
  | none =>
    if w.collabResult = "" then ResolveOutcome.failed true
    else ResolveOutcome.resolved w.collabResult true
  | some v =>
    if v = "" then ResolveOutcome.failed false
    else ResolveOutcome.resolved v false

/-- The resolution order exactly as the claim words it (claim-side
definition, for comparison with `check_env_protonpath`): (1) an explicit
value naming an existing cache subdirectory is rewritten to the absolute
cache path; (2) an explicit value that is an existing directory is used
as-is; (3) otherwise delegate to the retrieval collaborator and fail exactly
when it leaves the value empty. -/
def resolver_claim (w : ResolverWorld) : ResolveOutcome :=
  let delegate : ResolveOutcome :=
    if w.collabResult = "" then ResolveOutcome.failed true
    else ResolveOutcome.resolved w.collabResult true
  match w.protonpathVar with
  | some v =>
    if w.cacheHasSubdir v then ResolveOutcome.resolved (joinPath w.steamCompat v) false
    else if w.isExistingDir v then ResolveOutcome.resolved v false
    else delegate
  | none => delegate

/-! ## Command Builder: `build_command`

`src/ULWGL/ulwgl_run.py` lines 233-285.
-/

/-- The two Command Builder precondition failures (both raised as
`FileNotFoundError` in the source, distinguished by their message;
EntryPointNotFound / RuntimeBinaryNotFound in the spec's taxonomy). -/
inductive BuildErr
  | entryPointNotFound (msg : String)
  | runtimeBinaryNotFound (msg : String)
deriving DecidableEq

/-- The message of lines 247-251: names both searched install locations
(`Path.home()/".local/share"` and the directory of the script). -/
def entryPointMsg (home scriptDir : String) : String :=
  "Path to _v2-entry-point cannot be found in: " ++ home ++ "/.local/share or "
    ++ scriptDir ++ "\nPlease install a Steam Runtime platform"

/-- The message of line 255. -/
def protonMsg : String := "The following file was not found in PROTONPATH: proton"

/-- Inputs of `build_command`:

* `entryIsFile`: `local.joinpath("ULWGL").is_file()` (line 244);
* `protonIsFile`: `Path(env.get("PROTONPATH")).joinpath("proton").is_file()`
  (line 254);
* `home`, `scriptDir`: `Path.home()` and `Path(__file__).parent`;
* `localPath`: `local` (the `ULWGL_LOCAL` directory);
* `protonPath`, `verb`, `exe`, `systemdVar`: the vector-relevant env entries;
* `config`: the parsed TOML document (its `[ulwgl]` table), `none` in CLI
  mode;
* `reaperWrapper`, `systemdWrapper`: Modelled from the spec: the bodies of
  `ulwgl_plugins.enable_reaper` / `enable_systemd` are not among the sources;
  per spec section 4.3 each variant mutates the (still empty) vector by
  prepending its own supervisory wrapper, so each is an opaque token list. -/
structure BuildInput where
  entryIsFile : Bool
  protonIsFile : Bool
  home : String
  scriptDir : String
  localPath : String
  protonPath : String
  verb : String
  exe : String
  systemdVar : String
  config : Option UlwglTable
  reaperWrapper : List String
  systemdWrapper : List String

/-- `build_command` (lines 233-285): check the entry point, check the compat
tool's `proton` binary, extend the vector with the chosen subreaper wrapper,
then `[entry, "--verb", verb, "--"]`, then `[protonpath/proton, verb, exe]`,
then the passthrough options when non-empty (`if opts:`). -/
def build_command (b : BuildInput) (command : List String) (opts : List String) :
    Except BuildErr (List String) :=
  if !b.entryIsFile then
    Except.error (BuildErr.entryPointNotFound (entryPointMsg b.home b.scriptDir))
  else if !b.protonIsFile then
    Except.error (BuildErr.runtimeBinaryNotFound protonMsg)
  else
    let cmd1 :=
      match selectSubreaper b.config b.systemdVar with
      | SubreaperChoice.transientServiceUnit => command ++ b.systemdWrapper
      | SubreaperChoice.externalReaperProcess => command ++ b.reaperWrapper
    let cmd2 := cmd1 ++ [joinPath b.localPath "ULWGL", "--verb", b.verb, "--"]
      ++ [joinPath b.protonPath "proton", b.verb, b.exe]
    Except.ok (if !opts.isEmpty then cmd2 ++ opts else cmd2)

/-! ## Prefix Reconciler: `setup_pfx`

`src/ULWGL/ulwgl_run.py` lines 78-117.  The function touches exactly six
on-disk entries under the prefix root `P` (assumed to be an existing
directory, as `check_env`/`set_env_toml` guarantee): `P/pfx`,
`P/tracked_files`, `P/drive_c`, `P/drive_c/users`,
`P/drive_c/users/steamuser` (steam-identity) and
`P/drive_c/users/<unix user>` (os-identity).  The model assumes symlinks at
the marker or intermediate-directory entries do not alias the identity
entries; the two identity entries may reference each other (their relative
symlink targets `"steamuser"` / the unix user name resolve to the sibling
entry) and resolution is fuel-bounded, so symlink cycles behave like ELOOP
(not a directory, not existing), as in POSIX.
-/

/-- Target of a symlink at `P/pfx`: the prefix root itself, or anything
else.  The code never resolves `pfx` while it is a symlink (it unlinks it
first), so only the distinction matters for the resulting topology. -/
inductive PfxTarget
  | root
  | other
deriving DecidableEq, Fintype

/-- The `P/pfx` entry. -/
inductive PfxEntry
  | missing
  | file
  | dir
  | symlink (t : PfxTarget)
deriving DecidableEq, Fintype

/-- The `P/tracked_files` entry, with a symlink classified by what its
(unmodelled, non-aliasing) target resolves to. -/
inductive TrackedEntry
  | missing
  | file
  | dir
  | symlinkFileLike
  | symlinkDirLike
  | symlinkBroken
deriving DecidableEq, Fintype

/-- An intermediate directory entry (`P/drive_c`, `P/drive_c/users`), with a
symlink classified by whether it resolves to a directory. -/
inductive DirishEntry
  | missing
  | file
  | dir
  | symlinkDirLike
  | symlinkOther
deriving DecidableEq, Fintype

/-- Target of a symlink at an identity entry: the sibling steam-identity
entry (relative target `"steamuser"`), the sibling os-identity entry
(relative target `user.get_user()`), or an external target that is / is not
a directory. -/
inductive IdTarget
  | toSteam
  | toUnix
  | extDir
  | extBroken
deriving DecidableEq, Fintype

/-- An identity entry (`steamuser` or `<unix user>` under
`P/drive_c/users`). -/
inductive IdEntry
  | missing
  | file
  | dir
  | symlink (t : IdTarget)
deriving DecidableEq, Fintype

/-- The reconciliation branch taken by lines 97-116: `a` fresh prefix, `b`
steam-identity linked to an os-identity directory, `c` os-identity linked to
a steam-identity directory, `d` no mutation. -/
inductive Branch
  | a
  | b
  | c
  | d
deriving DecidableEq, Fintype

/-- Filesystem faults `setup_pfx` can raise (they propagate unhandled, spec
section 4.2). -/
inductive FsErr
  | fileExists
  | isADirectory
  | notADirectory
  | fileNotFound
deriving DecidableEq

/-- `Path.is_dir()` of an identity entry, following symlinks: `st`/`wu` are
the current steam-identity and os-identity entries (for the sibling-relative
targets); the fuel bounds link chains so that a cycle resolves like ELOOP. -/
def idIsDirAux (st wu : IdEntry) : Nat → IdEntry → Bool
  | 0, _ => false
  | _ + 1, IdEntry.dir => true
  | _ + 1, IdEntry.file => false
  | _ + 1, IdEntry.missing => false
  | n + 1, IdEntry.symlink t =>
    match t with
    | IdTarget.toSteam => idIsDirAux st wu n st
    | IdTarget.toUnix => idIsDirAux st wu n wu
    | IdTarget.extDir => true
    | IdTarget.extBroken => false

/-- `Path.exists()` of an identity entry, following symlinks (broken links
and cycles give `False`, as `pathlib` ignores ENOENT and ELOOP). -/
def idExistsAux (st wu : IdEntry) : Nat → IdEntry → Bool
  | 0, _ => false
  | _ + 1, IdEntry.dir => true
  | _ + 1, IdEntry.file => true
  | _ + 1, IdEntry.missing => false
  | n + 1, IdEntry.symlink t =>
    match t with
    | IdTarget.toSteam => idExistsAux st wu n st
    | IdTarget.toUnix => idExistsAux st wu n wu
    | IdTarget.extDir => true
    | IdTarget.extBroken => false

/-- `is_dir` with the fuel fixed ample for the two-entry link graph (any
chain either terminates within two hops or cycles). -/
def idIsDir (st wu e : IdEntry) : Bool := idIsDirAux st wu 8 e

/-- `exists` with the same fuel. -/
def idExists (st wu e : IdEntry) : Bool := idExistsAux st wu 8 e

/-- `Path.is_symlink()` of an identity entry (never follows). -/
def isSymE : IdEntry → Bool
  | IdEntry.symlink _ => true
  | _ => false

/-- Whether a symlink can be created inside `users`: the parent must resolve
to a directory, else the OS raises (ENOENT/ENOTDIR). -/
def dirishParentOk : DirishEntry → Bool
  | DirishEntry.dir => true
  | DirishEntry.symlinkDirLike => true
  | _ => false

/-- One component of `mkdir(parents=True)`: create a missing component,
accept one that already resolves to a directory, fail otherwise. -/
def mkdirComponent : DirishEntry → Except FsErr DirishEntry
  | DirishEntry.missing => Except.ok DirishEntry.dir
  | DirishEntry.dir => Except.ok DirishEntry.dir
  | DirishEntry.symlinkDirLike => Except.ok DirishEntry.symlinkDirLike
  | DirishEntry.file => Except.error FsErr.notADirectory
  | DirishEntry.symlinkOther => Except.error FsErr.notADirectory

/-- Lines 87-92: `if pfx.is_symlink(): pfx.unlink()`, then
`if not pfx.is_dir(): pfx.symlink_to(P)`.  A symlink is removed and
recreated pointing at the root; a plain directory is kept; a missing entry
becomes the symlink; a plain file makes `symlink_to` raise
`FileExistsError`. -/
def pfxStep : PfxEntry → Except FsErr PfxEntry
  | PfxEntry.symlink _ => Except.ok (PfxEntry.symlink PfxTarget.root)
  | PfxEntry.missing => Except.ok (PfxEntry.symlink PfxTarget.root)
  | PfxEntry.dir => Except.ok PfxEntry.dir
  | PfxEntry.file => Except.error FsErr.fileExists

/-- Line 93: `Path(path).joinpath("tracked_files").touch()`.  Touch creates a
missing file, updates an existing one, raises `IsADirectoryError` on a
directory (or a symlink resolving to one), and creates the target through a
broken symlink (the entry itself is unchanged). -/
def touchStep : TrackedEntry → Except FsErr TrackedEntry
  | TrackedEntry.missing => Except.ok TrackedEntry.file
  | TrackedEntry.file => Except.ok TrackedEntry.file
  | TrackedEntry.dir => Except.error FsErr.isADirectory
  | TrackedEntry.symlinkFileLike => Except.ok TrackedEntry.symlinkFileLike
  | TrackedEntry.symlinkDirLike => Except.error FsErr.isADirectory
  | TrackedEntry.symlinkBroken => Except.ok TrackedEntry.symlinkBroken

/-- Lines 97-116, the identity reconciliation, returning the updated
`(drive_c, users, steamuser, <unix user>)` entries and the branch taken:

* branch a (97-105): guard `not wineuser.is_dir() and not steam.is_dir() and
  not (wineuser.is_symlink() or steam.is_symlink())`; then
  `steam.mkdir(parents=True)` (fails with `FileExistsError` when the
  steam entry exists, e.g. as a plain file, and on non-directory
  intermediates), `wineuser.unlink(missing_ok=True)`,
  `wineuser.symlink_to("steamuser")`;
* branch b (106-109): guard `wineuser.is_dir() and not steam.is_dir() and
  not steam.is_symlink()`; then `steam.unlink(missing_ok=True)`,
  `steam.symlink_to(user.get_user())`;
* branch c (110-112): guard `not wineuser.exists() and not
  wineuser.is_symlink() and steam.is_dir()`; then
  `wineuser.unlink(missing_ok=True)`, `wineuser.symlink_to("steamuser")`;
* branch d (113-116): log only, no mutation. -/
def identityStep (driveC users : DirishEntry) (steam wineuser : IdEntry) :
    Except FsErr (DirishEntry × DirishEntry × IdEntry × IdEntry × Branch) :=
  if !idIsDir steam wineuser wineuser && !idIsDir steam wineuser steam
      && !(isSymE wineuser || isSymE steam) then
    match mkdirComponent driveC with
    | Except.error e => Except.error e
    | Except.ok dc' =>
      match mkdirComponent users with
      | Except.error e => Except.error e
      | Except.ok us' =>
        match steam with
        | IdEntry.missing =>
          match wineuser with
          | IdEntry.dir => Except.error FsErr.isADirectory
          | _ => Except.ok (dc', us', IdEntry.dir, IdEntry.symlink IdTarget.toSteam, Branch.a)
        | _ => Except.error FsErr.fileExists
  else if idIsDir steam wineuser wineuser && !idIsDir steam wineuser steam
      && !isSymE steam then
    match steam with
    | IdEntry.dir => Except.error FsErr.isADirectory
    | _ =>
      if dirishParentOk users then
        Except.ok (driveC, users, IdEntry.symlink IdTarget.toUnix, wineuser, Branch.b)
      else Except.error FsErr.fileNotFound
  else if !idExists steam wineuser wineuser && !isSymE wineuser
      && idIsDir steam wineuser steam then
    if dirishParentOk users then
      Except.ok (driveC, users, steam, IdEntry.symlink IdTarget.toSteam, Branch.c)
    else Except.error FsErr.fileNotFound
  else
    Except.ok (driveC, users, steam, wineuser, Branch.d)

/-- The six managed entries of a prefix (see the section comment). -/
structure PrefixFS where
  pfx : PfxEntry
  tracked : TrackedEntry
  driveC : DirishEntry
  users : DirishEntry
  steam : IdEntry
  wineuser : IdEntry
deriving DecidableEq

/-- `setup_pfx` (lines 78-117): the `pfx` symlink step, the marker touch,
then the identity reconciliation, in source order; any filesystem fault
propagates. -/
def setup_pfx (fs : PrefixFS) : Except FsErr (PrefixFS × Branch) :=
  match pfxStep fs.pfx with
  | Except.error e => Except.error e
  | Except.ok p' =>
    match touchStep fs.tracked with
    | Except.error e => Except.error e
    | Except.ok t' =>
      match identityStep fs.driveC fs.users fs.steam fs.wineuser with
      | Except.error e => Except.error e
      | Except.ok (dc', us', st', wu', br) =>
        Except.ok (⟨p', t', dc', us', st', wu'⟩, br)

/-- An empty (fresh) prefix directory: none of the managed entries exist. -/
def freshFS : PrefixFS :=
  ⟨PfxEntry.missing, TrackedEntry.missing, DirishEntry.missing, DirishEntry.missing,
   IdEntry.missing, IdEntry.missing⟩

/-- The topology `setup_pfx` establishes on a fresh prefix. -/
def afterFreshFS : PrefixFS :=
  ⟨PfxEntry.symlink PfxTarget.root, TrackedEntry.file, DirishEntry.dir, DirishEntry.dir,
   IdEntry.dir, IdEntry.symlink IdTarget.toSteam⟩

/-- Second-run check for the `pfx` step: whenever the first run succeeds, a
second run reproduces its result. -/
def pfxIdemCheck (e : PfxEntry) : Bool :=
  match pfxStep e with
  | Except.error _ => true
  | Except.ok e' => decide (pfxStep e' = Except.ok e')

/-- Second-run check for the marker touch. -/
def touchIdemCheck (e : TrackedEntry) : Bool :=
  match touchStep e with
  | Except.error _ => true
  | Except.ok e' => decide (touchStep e' = Except.ok e')

/-- Second-run check for the identity reconciliation: whenever the first run
succeeds, a second run on its output changes nothing and takes branch d. -/
def idIdemCheck (dc us : DirishEntry) (st wu : IdEntry) : Bool :=
  match identityStep dc us st wu with
  | Except.error _ => true
  | Except.ok (dc', us', st', wu', _) =>
    decide (identityStep dc' us' st' wu' = Except.ok (dc', us', st', wu', Branch.d))

/-! ## Helper lemmas -/

theorem pfxIdemCheck_all : ∀ e : PfxEntry, pfxIdemCheck e = true := by decide

theorem touchIdemCheck_all : ∀ e : TrackedEntry, touchIdemCheck e = true := by decide

theorem idIdemCheck_all :
    ∀ (dc us : DirishEntry) (st wu : IdEntry), idIdemCheck dc us st wu = true := by decide

theorem pfxStep_idem (e e' : PfxEntry) (h : pfxStep e = Except.ok e') :
    pfxStep e' = Except.ok e' := by
  have hc := pfxIdemCheck_all e
  unfold pfxIdemCheck at hc
  rw [h] at hc
  exact of_decide_eq_true hc

theorem touchStep_idem (e e' : TrackedEntry) (h : touchStep e = Except.ok e') :
    touchStep e' = Except.ok e' := by
  have hc := touchIdemCheck_all e
  unfold touchIdemCheck at hc
  rw [h] at hc
  exact of_decide_eq_true hc

theorem identityStep_idem (dc us : DirishEntry) (st wu : IdEntry)
    (dc' us' : DirishEntry) (st' wu' : IdEntry) (br : Branch)
    (h : identityStep dc us st wu = Except.ok (dc', us', st', wu', br)) :
    identityStep dc' us' st' wu' = Except.ok (dc', us', st', wu', Branch.d) := by
  have hc := idIdemCheck_all dc us st wu
  unfold idIdemCheck at hc
  rw [h] at hc
  exact of_decide_eq_true hc

/-! ## C1: subreaper selection -/

/-- C1.  The claim says `reaper = false` in the configuration selects
TransientServiceUnit (systemd wrapping).  The code's condition
`config and config.get("ulwgl").get("reaper") and not config.get("ulwgl").get("reaper")`
conjoins a value with its own negation and is therefore never true, so with
`reaper = false` and `ULWGL_SYSTEMD` unset the launcher selects
ExternalReaperProcess — contradicting the claim, the spec, and the
`"Using systemd as subreaper"` debug message inside that (dead) branch. -/
theorem selectSubreaper_reaper_false_external :
    selectSubreaper (some ⟨some false⟩) "" = SubreaperChoice.externalReaperProcess
    ∧ SubreaperChoice.externalReaperProcess ≠ SubreaperChoice.transientServiceUnit := by
  decide

/-! ## C6: fresh prefix -/

/-- C6.  On an empty prefix directory one reconciliation run takes branch a
and yields: `pfx` a symlink to the prefix root, the marker file present, the
steam-identity a real directory, the os-identity a symlink to it. -/
theorem setup_pfx_fresh :
    setup_pfx freshFS = Except.ok (afterFreshFS, Branch.a)
    ∧ afterFreshFS.pfx = PfxEntry.symlink PfxTarget.root
    ∧ afterFreshFS.tracked = TrackedEntry.file
    ∧ afterFreshFS.steam = IdEntry.dir
    ∧ afterFreshFS.wineuser = IdEntry.symlink IdTarget.toSteam := by
  decide

/-! ## C7: idempotence -/

/-- C7.  Whenever a reconciliation run succeeds, a second run on its result
succeeds, changes nothing, and takes the no-mutation branch d. -/
theorem setup_pfx_idempotent (fs fs₁ : PrefixFS) (b₁ : Branch)
    (h : setup_pfx fs = Except.ok (fs₁, b₁)) :
    setup_pfx fs₁ = Except.ok (fs₁, Branch.d) := by
  unfold setup_pfx at h
  cases hp : pfxStep fs.pfx with
  | error e => rw [hp] at h; exact absurd h (by simp)
  | ok p' =>
    rw [hp] at h
    cases ht : touchStep fs.tracked with
    | error e => rw [ht] at h; exact absurd h (by simp)
    | ok t' =>
      rw [ht] at h
      cases hi : identityStep fs.driveC fs.users fs.steam fs.wineuser with
      | error e => rw [hi] at h; exact absurd h (by simp)
      | ok r =>
        obtain ⟨dc', us', st', wu', br⟩ := r
        rw [hi] at h
        rw [Except.ok.injEq, Prod.mk.injEq] at h
        obtain ⟨hfs, _⟩ := h
        subst hfs
        unfold setup_pfx
        rw [show (⟨p', t', dc', us', st', wu'⟩ : PrefixFS).pfx = p' from rfl,
          pfxStep_idem fs.pfx p' hp,
          show (⟨p', t', dc', us', st', wu'⟩ : PrefixFS).tracked = t' from rfl,
          touchStep_idem fs.tracked t' ht]
        rw [show (⟨p', t', dc', us', st', wu'⟩ : PrefixFS).driveC = dc' from rfl,
          show (⟨p', t', dc', us', st', wu'⟩ : PrefixFS).users = us' from rfl,
          show (⟨p', t', dc', us', st', wu'⟩ : PrefixFS).steam = st' from rfl,
          show (⟨p', t', dc', us', st', wu'⟩ : PrefixFS).wineuser = wu' from rfl,
          identityStep_idem fs.driveC fs.users fs.steam fs.wineuser dc' us' st' wu' br hi]

/-- C7 witness: the theorem applied to the fresh prefix. -/
theorem setup_pfx_idempotent_witness :
    setup_pfx afterFreshFS = Except.ok (afterFreshFS, Branch.d) :=
  setup_pfx_idempotent freshFS afterFreshFS Branch.a (by decide)

/-! ## C9: explicit-shutdown reaping -/

theorem findUnit_eq_of_ne_empty (key : String) (units : List UnitItem) (u : String)
    (h : findUnit key units = u) (hu : u ≠ "") :
    ∃ m, firstMatch units key = some m ∧ m.description = some key ∧ u = m.unit := by
  induction units with
  | nil =>
    rw [findUnit] at h
    exact absurd h.symm hu
  | cons i rest ih =>
    rw [findUnit] at h
    by_cases hd : i.description == some key
    · rw [if_pos hd] at h
      refine ⟨i, ?_, ?_, h.symm⟩
      · simp [firstMatch, List.find?, hd]
      · exact eq_of_beq hd
    · rw [if_neg hd] at h
      obtain ⟨m, h1, h2, h3⟩ := ih h
      refine ⟨m, ?_, h2, h3⟩
      rw [firstMatch] at h1 ⊢
      rw [List.find?]
      simp only [hd, Bool.false_eq_true, if_false]
      exact h1

theorem findUnit_eq_empty_of_no_match (key : String) (units : List UnitItem)
    (h : ∀ m ∈ units, m.description ≠ some key) : findUnit key units = "" := by
  induction units with
  | nil => rfl
  | cons i rest ih =>
    rw [findUnit]
    have hd : (i.description == some key) = false := by
      simp only [beq_eq_false_iff_ne, ne_eq]
      exact h i (List.mem_cons_self i rest)
    rw [hd, if_neg (by simp)]
    exact ih (fun m hm => h m (List.mem_cons_of_mem i hm))

theorem findUnit_of_firstMatch (key : String) (units : List UnitItem) (m : UnitItem)
    (h : firstMatch units key = some m) : findUnit key units = m.unit := by
  induction units with
  | nil => simp [firstMatch, List.find?] at h
  | cons i rest ih =>
    rw [firstMatch, List.find?] at h
    rw [findUnit]
    by_cases hd : i.description == some key
    · simp only [hd, if_true] at h ⊢
      cases h
      rfl
    · simp only [hd, Bool.false_eq_true, if_false] at h ⊢
      exact ih h

/-- C9.  With the transient service unit in use (`ULWGL_SYSTEMD = "1"`),
`stop_unit`:
(1) only ever stops the unit of the first list row whose description equals
`ulwgl-<id>` (so never a row whose description differs);
(2) issues no stop call when no row's description matches;
(3) stops exactly the first matching row whenever one exists (its `unit`
field being non-empty, as every `systemctl list-units -o json` row's is). -/
theorem stop_unit_spec (gamescope : Option String) (units : List UnitItem) (id : String) :
    (∀ u, stop_unit "1" gamescope units id = Except.ok (some u) →
      ∃ m, firstMatch units ("ulwgl-" ++ id) = some m
        ∧ m.description = some ("ulwgl-" ++ id) ∧ u = m.unit)
    ∧ ((∀ m ∈ units, m.description ≠ some ("ulwgl-" ++ id)) →
      stop_unit "1" gamescope units id = Except.ok none)
    ∧ (∀ m, firstMatch units ("ulwgl-" ++ id) = some m → m.unit ≠ "" →
      stop_unit "1" gamescope units id = Except.ok (some m.unit)) := by
  have hred : stop_unit "1" gamescope units id = Except.ok (stopLogic units id) := by
    unfold stop_unit
    simp
  refine ⟨?_, ?_, ?_⟩
  · intro u hu
    rw [hred] at hu
    rw [stopLogic] at hu
    by_cases hf : findUnit ("ulwgl-" ++ id) units = ""
    · rw [if_pos hf] at hu
      simp at hu
    · rw [if_neg hf] at hu
      rw [Except.ok.injEq, Option.some.injEq] at hu
      exact findUnit_eq_of_ne_empty _ _ u hu (hu ▸ hf)
  · intro hno
    rw [hred, stopLogic, findUnit_eq_empty_of_no_match _ _ hno, if_pos rfl]
  · intro m hm hmu
    rw [hred, stopLogic, findUnit_of_firstMatch _ _ _ hm, if_neg hmu]

/-- C9 witness: a matching row is stopped; a list with no matching
description yields no stop call. -/
theorem stop_unit_spec_witness :
    stop_unit "1" none [⟨some "ulwgl-ulwgl-271590", "app-game.scope"⟩] "ulwgl-271590"
      = Except.ok (some "app-game.scope")
    ∧ stop_unit "1" none [⟨some "other", "app-x.scope"⟩] "ulwgl-271590"
      = Except.ok none := by
  constructor
  · exact (stop_unit_spec none [⟨some "ulwgl-ulwgl-271590", "app-game.scope"⟩]
      "ulwgl-271590").2.2 ⟨some "ulwgl-ulwgl-271590", "app-game.scope"⟩
      (by decide) (by decide)
  · exact (stop_unit_spec none [⟨some "other", "app-x.scope"⟩] "ulwgl-271590").2.1
      (by decide)

/-! ## C10: unguarded `ULWGL_GAMESCOPE` access -/

/-- C10.  Whenever `ULWGL_SYSTEMD` is not `"1"` (the default external-reaper
runs) and `ULWGL_GAMESCOPE` was never set, the post-success teardown call
`stop_unit` raises `KeyError` on `os.environ["ULWGL_GAMESCOPE"]`, and the
program exits with status 1 even though the wrapped child exited with 0. -/
theorem stop_unit_keyerror_exit (systemd : String) (units : List UnitItem) (id : String)
    (h : systemd ≠ "1") :
    stop_unit systemd none units id = Except.error PyExc.keyError
    ∧ program_exit RunEvent.completes 0 systemd none units id = 1 := by
  have hb : (systemd == "1") = false := by simp [h]
  have hs : stop_unit systemd none units id = Except.error PyExc.keyError := by
    unfold stop_unit
    rw [hb]
    simp
  refine ⟨hs, ?_⟩
  have h1 : mainBody RunEvent.completes 0 systemd none units id = PyExc.keyError := by
    unfold mainBody
    rw [hs]
    rfl
  unfold program_exit
  rw [h1]
  rfl

/-- C10 witness: the default `ULWGL_SYSTEMD=""` run. -/
theorem stop_unit_keyerror_exit_witness :
    stop_unit "" none [] "ulwgl-271590" = Except.error PyExc.keyError
    ∧ program_exit RunEvent.completes 0 "" none [] "ulwgl-271590" = 1 :=
  stop_unit_keyerror_exit "" [] "ulwgl-271590" (by decide)

/-! ## C2: process exit status -/

/-- C2 counterexample.  A run with no fault whatsoever (systemd subreaper, so
the teardown cannot raise) whose wrapped child exits with code 2 makes the
program exit with status 1, not 2: `sys.exit(2)` raises `SystemExit(2)`,
the `except SystemExit` clause re-raises it as `Exception`, and that
exception escapes uncaught (a handler's exceptions are not caught by later
clauses of the same `try`), so the interpreter exits with 1. -/
theorem program_exit_nonzero_child_cex :
    program_exit RunEvent.completes 2 "1" none [] "x" = 1 ∧ (2 : Int) ≠ 1 := by
  decide

/-- C2 amended.  When the teardown cannot fault (`ULWGL_SYSTEMD = "1"` or
`ULWGL_GAMESCOPE` present): a completing run exits with the child's code
only when that code is 0 and with 1 for every non-zero child code; an
uncaught internal fault exits 1; a second interrupt exits 1. -/
theorem program_exit_amended (ret : Int) (systemd : String) (gamescope : Option String)
    (units : List UnitItem) (id : String)
    (h : systemd = "1" ∨ gamescope ≠ none) :
    program_exit RunEvent.completes ret systemd gamescope units id
      = (if ret = 0 then ret else 1)
    ∧ program_exit RunEvent.faults ret systemd gamescope units id = 1
    ∧ program_exit RunEvent.interruptedTwice ret systemd gamescope units id = 1 := by
  have hstop : ∃ r, stop_unit systemd gamescope units id = Except.ok r := by
    rcases h with h | h
    · subst h
      unfold stop_unit
      simp
    · cases gamescope with
      | none => exact absurd rfl h
      | some g =>
        unfold stop_unit
        by_cases h1 : (systemd == "1") = true
        · rw [h1]
          exact ⟨stopLogic units id, by simp⟩
        · rw [Bool.not_eq_true] at h1
          rw [h1]
          by_cases h2 : (g == "1") = true
          · exact ⟨none, by simp [h2]⟩
          · rw [Bool.not_eq_true] at h2
            exact ⟨stopLogic units id, by simp [h2]⟩
  obtain ⟨r, hr⟩ := hstop
  have hm : mainBody RunEvent.completes ret systemd gamescope units id
      = PyExc.systemExit ret := by
    unfold mainBody
    by_cases hret : ret = 0
    · subst hret
      rw [hr]
      rfl
    · have hbeq : (ret == 0) = false := by simp [hret]
      rw [hbeq]
      simp
  refine ⟨?_, by rfl, by rfl⟩
  unfold program_exit
  rw [hm]
  by_cases hret : ret = 0
  · subst hret
    simp
  · simp [hret, uncaughtExit]

/-- C2 amended witness: a clean zero exit propagates as 0. -/
theorem program_exit_amended_witness :
    program_exit RunEvent.completes 0 "1" none [] "x" = 0 := by
  simpa using (program_exit_amended 0 "1" none [] "x" (Or.inl rfl)).1

/-! ## C4: execution verb -/

/-- C4 counterexample.  `PROTON_VERB=run` is a member of the known-verb set,
yet a tuple invocation with an empty executable (prefix-creation mode)
resolves the verb to `"waitforexitandrun"`, not to the environment value:
line 193 of `set_env` overwrites it. -/
theorem resolved_verb_empty_exe_cex :
    resolved_verb (some "run") (Args.cli "" []) = "waitforexitandrun"
    ∧ PROTON_VERBS.contains "run" = true
    ∧ ("run" : String) ≠ "waitforexitandrun" := by
  decide

/-- C4 amended.  The resolved verb equals the `PROTON_VERB` environment
value exactly when that value is a member of the fixed known-verb set and
the invocation is not the empty-executable (prefix-creation) tuple form;
in every other case — unknown verb, unset variable, or empty-executable
invocation — it is `"waitforexitandrun"`. -/
theorem resolved_verb_amended (protonVerbVar : Option String) (args : Args) :
    (∀ exe opts, args = Args.cli exe opts → exe = "" →
      resolved_verb protonVerbVar args = "waitforexitandrun")
    ∧ (∀ v, protonVerbVar = some v → PROTON_VERBS.contains v = true →
      (∀ opts, args ≠ Args.cli "" opts) →
      resolved_verb protonVerbVar args = v)
    ∧ (∀ v, protonVerbVar = some v → PROTON_VERBS.contains v = false →
      resolved_verb protonVerbVar args = "waitforexitandrun")
    ∧ (protonVerbVar = none →
      resolved_verb protonVerbVar args = "waitforexitandrun") := by
  refine ⟨?_, ?_, ?_, ?_⟩
  · intro exe opts hargs hexe
    subst hargs; subst hexe
    rfl
  · intro v hv hmem hne
    subst hv
    have hmem' : v ∈ PROTON_VERBS := by simpa using hmem
    cases args with
    | cli exe opts =>
      have hexe : exe ≠ "" := fun hc => hne opts (by rw [hc])
      simp [resolved_verb, set_env_verb, hmem', hexe]
    | config =>
      simp [resolved_verb, set_env_verb, hmem']
  · intro v hv hmem
    subst hv
    have hmem' : v ∉ PROTON_VERBS := by simpa using hmem
    cases args with
    | cli exe opts =>
      simp [resolved_verb, set_env_verb, hmem']
    | config =>
      simp [resolved_verb, set_env_verb, hmem']
  · intro hv
    subst hv
    cases args with
    | cli exe opts =>
      simp [resolved_verb, set_env_verb]
    | config => rfl

/-- C4 amended witness: a known verb with a non-empty executable is
adopted. -/
theorem resolved_verb_amended_witness :
    resolved_verb (some "run") (Args.cli "/game.exe" []) = "run" :=
  (resolved_verb_amended (some "run") (Args.cli "/game.exe" [])).2.1 "run" rfl
    (by decide) (by intro opts hc; injection hc with h1 h2; exact absurd h1 (by decide))

/-! ## C5: app-id derivation -/

/-- C5 counterexample.  `ulwgl-_` does not match the claim's pattern
`ulwgl-<alphanumeric>` (underscore is not alphanumeric), so the claim
demands app id `"0"`; the code's regex `^ulwgl-[\d\w]+$` accepts the
underscore and yields `"_"`. -/
theorem set_env_ids_underscore_cex :
    claimAlnumPattern ['u', 'l', 'w', 'g', 'l', '-', '_'] = false
    ∧ (set_env_ids ['u', 'l', 'w', 'g', 'l', '-', '_']).2.1 = ['_']
    ∧ (['_'] : List Char) ≠ ['0'] := by
  decide

/-- C5 amended.  The numeric app id equals the suffix after the first `'-'`
exactly when the identifier matches `ulwgl-<word characters>` (letters,
digits or underscore — the regex `^ulwgl-[\d\w]+$`), and equals `"0"`
otherwise; the aliases `SteamAppId` and `SteamGameId` always carry the
identical value. -/
theorem set_env_ids_amended (id : List Char) :
    (∀ rest, id = 'u' :: 'l' :: 'w' :: 'g' :: 'l' :: '-' :: rest → rest ≠ [] →
      rest.all isWordChar = true → (set_env_ids id).2.1 = rest)
    ∧ (matchesUlwglId id = false → (set_env_ids id).2.1 = ['0'])
    ∧ (set_env_ids id).2.2.1 = (set_env_ids id).2.1
    ∧ (set_env_ids id).2.2.2 = (set_env_ids id).2.2.1 := by
  refine ⟨?_, ?_, ?_, ?_⟩
  · intro rest hid hne hall
    subst hid
    have hm : matchesUlwglId ('u' :: 'l' :: 'w' :: 'g' :: 'l' :: '-' :: rest) = true := by
      simp only [matchesUlwglId, hall, Bool.and_true]
      cases rest with
      | nil => exact absurd rfl hne
      | cons c cs => rfl
    have hf : strFindDash ('u' :: 'l' :: 'w' :: 'g' :: 'l' :: '-' :: rest) = 5 := rfl
    simp only [set_env_ids, hm, if_true, hf]
    rfl
  · intro hm
    simp [set_env_ids, hm]
  · rfl
  · rfl

/-- C5 amended witness: the spec's two examples, `ulwgl-271590 ↦ 271590`
(via the theorem) and `mygame ↦ 0`, plus the alias equalities. -/
theorem set_env_ids_amended_witness :
    (set_env_ids ['u', 'l', 'w', 'g', 'l', '-', '2', '7', '1', '5', '9', '0']).2.1
      = ['2', '7', '1', '5', '9', '0']
    ∧ (set_env_ids ['m', 'y', 'g', 'a', 'm', 'e']).2.1 = ['0'] := by
  constructor
  · exact (set_env_ids_amended _).1 ['2', '7', '1', '5', '9', '0'] rfl (by decide)
      (by decide)
  · exact (set_env_ids_amended ['m', 'y', 'g', 'a', 'm', 'e']).2.1 (by decide)

/-! ## C3: `PROTONPATH` resolution -/

theorem joinPath_ne_empty (a b : String) (hb : b ≠ "") : joinPath a b ≠ "" := by
  unfold joinPath
  by_cases hs : b.startsWith "/"
  · rw [if_pos hs]
    exact hb
  · rw [if_neg hs]
    intro hc
    have hl := congrArg String.length hc
    rw [String.length_append, String.length_append] at hl
    have h1 : ("/" : String).length = 1 := rfl
    have h0 : ("" : String).length = 0 := rfl
    rw [h1, h0] at hl
    omega

/-- C3 counterexample.  An explicitly set `PROTONPATH=/nonexistent` that
names no cache subdirectory and is not an existing directory: the claim's
order delegates to the collaborator (which here fails, leaving the value
empty) and fails; the code keeps the value as-is, never delegates, and
succeeds. -/
theorem check_env_protonpath_cex :
    check_env_protonpath ⟨some "/nonexistent", "/home/u/.local/share/Steam/compatibilitytools.d",
        fun _ => false, fun _ => false, ""⟩
      = ResolveOutcome.resolved "/nonexistent" false
    ∧ resolver_claim ⟨some "/nonexistent", "/home/u/.local/share/Steam/compatibilitytools.d",
        fun _ => false, fun _ => false, ""⟩
      = ResolveOutcome.failed true
    ∧ ResolveOutcome.resolved "/nonexistent" false ≠ ResolveOutcome.failed true := by
  refine ⟨rfl, rfl, by decide⟩

/-- C3 amended.  The code resolves `PROTONPATH` as: (1) an explicit
non-empty value naming an existing cache subdirectory is rewritten to the
absolute cache path; (2) any other explicit non-empty value is used as-is,
whether or not it is an existing directory; (3) the retrieval collaborator
is consulted exactly when the variable is unset, failing when it leaves the
value empty; (4) an explicitly empty value fails without consulting the
collaborator. -/
theorem check_env_protonpath_amended (w : ResolverWorld) :
    (∀ v, w.protonpathVar = some v → v ≠ "" → w.cacheHasSubdir v = true →
      check_env_protonpath w = ResolveOutcome.resolved (joinPath w.steamCompat v) false)
    ∧ (∀ v, w.protonpathVar = some v → v ≠ "" → w.cacheHasSubdir v = false →
      check_env_protonpath w = ResolveOutcome.resolved v false)
    ∧ (w.protonpathVar = none →
      check_env_protonpath w =
        (if w.collabResult = "" then ResolveOutcome.failed true
         else ResolveOutcome.resolved w.collabResult true))
    ∧ (w.protonpathVar = some "" → check_env_protonpath w = ResolveOutcome.failed false) := by
  refine ⟨?_, ?_, ?_, ?_⟩
  · intro v hv hne hc
    simp only [check_env_protonpath, hv, hc, Bool.and_true, bne_iff_ne, ne_eq, hne,
      not_false_eq_true, if_true]
    rw [if_neg (joinPath_ne_empty w.steamCompat v hne)]
  · intro v hv hne hc
    simp only [check_env_protonpath, hv, hc, Bool.and_false, Bool.false_eq_true, if_false]
    rw [if_neg hne]
  · intro hv
    simp only [check_env_protonpath, hv]
  · intro hv
    simp [check_env_protonpath, hv]

/-- C3 amended witness: an unset variable delegates and adopts the
collaborator's non-empty result. -/
theorem check_env_protonpath_amended_witness :
    check_env_protonpath ⟨none, "/home/u/.local/share/Steam/compatibilitytools.d",
        fun _ => false, fun _ => false, "/home/u/.local/share/ULWGL/ULWGL-Proton"⟩
      = ResolveOutcome.resolved "/home/u/.local/share/ULWGL/ULWGL-Proton" true := by
  have h := (check_env_protonpath_amended ⟨none,
    "/home/u/.local/share/Steam/compatibilitytools.d",
    fun _ => false, fun _ => false, "/home/u/.local/share/ULWGL/ULWGL-Proton"⟩).2.2.1 rfl
  simpa using h

/-! ## C8: Command Builder preconditions -/

/-- C8.  `build_command` checks its preconditions in order: a missing entry
point fails with EntryPointNotFound carrying the message that names both
searched install locations, regardless of the compat tool's state; a present
entry point with a missing `proton` binary fails with RuntimeBinaryNotFound;
and when both checks pass it returns a vector. -/
theorem build_command_spec (b : BuildInput) (command opts : List String) :
    (b.entryIsFile = false →
      build_command b command opts
        = Except.error (BuildErr.entryPointNotFound (entryPointMsg b.home b.scriptDir)))
    ∧ (b.entryIsFile = true → b.protonIsFile = false →
      build_command b command opts
        = Except.error (BuildErr.runtimeBinaryNotFound protonMsg))
    ∧ (b.entryIsFile = true → b.protonIsFile = true →
      ∃ v, build_command b command opts = Except.ok v) := by
  refine ⟨?_, ?_, ?_⟩
  · intro h1
    simp [build_command, h1]
  · intro h1 h2
    simp [build_command, h1, h2]
  · intro h1 h2
    unfold build_command
    rw [h1, h2]
    exact ⟨_, rfl⟩

/-- C8 witness: the three cases at concrete inputs. -/
theorem build_command_spec_witness :
    build_command ⟨false, true, "/home/u", "/app", "/home/u/.local/share/ULWGL",
        "/proton-dir", "waitforexitandrun", "/game.exe", "", none, ["reaper-wrapper"],
        ["systemd-wrapper"]⟩ [] []
      = Except.error (BuildErr.entryPointNotFound (entryPointMsg "/home/u" "/app"))
    ∧ build_command ⟨true, false, "/home/u", "/app", "/home/u/.local/share/ULWGL",
        "/proton-dir", "waitforexitandrun", "/game.exe", "", none, ["reaper-wrapper"],
        ["systemd-wrapper"]⟩ [] []
      = Except.error (BuildErr.runtimeBinaryNotFound protonMsg) := by
  constructor
  · exact (build_command_spec ⟨false, true, "/home/u", "/app",
      "/home/u/.local/share/ULWGL", "/proton-dir", "waitforexitandrun", "/game.exe", "",
      none, ["reaper-wrapper"], ["systemd-wrapper"]⟩ [] []).1 rfl
  · exact (build_command_spec ⟨true, false, "/home/u", "/app",
      "/home/u/.local/share/ULWGL", "/proton-dir", "waitforexitandrun", "/game.exe", "",
      none, ["reaper-wrapper"], ["systemd-wrapper"]⟩ [] []).2.1 rfl rfl

end ULWGL
